import Mathlib

/-!
Verification development for the e-ink dashboard's touch-input core:
gesture recognition (src/touch/handler.py), screen navigation
(src/display/screen_manager.py) and the numpad input overlay
(src/display/input_screen.py).

Modelling conventions:
* Python float seconds are modelled as exact integer milliseconds (ℤ);
  the handler only ever compares a duration against a fixed threshold,
  so the embedding preserves those comparisons (1.0 s = 1000 ms,
  0.3 s = 300 ms).  The literal constants of handler.py lines 43-45 are
  additionally recorded in their source units below.
* Python strings holding the numpad buffer are modelled as lists of
  characters; `s += key` becomes `s ++ [key]`, `s[:-1]` becomes
  `s.dropLast`, `len` becomes `List.length`.
* Optional callbacks (`on_submit`, `on_cancel`, InputMode.callback) are
  modelled by returning an explicit action value instead of invoking a
  stored closure; the observable effects (state after the call, the
  boolean result, and the value passed to the user callback) are the
  same.
-/

/-- Gesture enumeration, from src/touch/handler.py (class Gesture). -/
inductive Gesture
  | TAP
  | SWIPE_LEFT
  | SWIPE_RIGHT
  | SWIPE_UP
  | SWIPE_DOWN
  | LONG_PRESS
deriving DecidableEq, Repr

/-- TouchEvent, from src/touch/handler.py: a gesture plus an optional
(x, y) position.  The timestamp field is not modelled (nothing in the
navigation or overlay code reads it). -/
structure TouchEvent where
  gesture : Gesture
  position : Option (Int × Int)
deriving DecidableEq, Repr

/-- Tunable constant from handler.py line 43: minimum pixels for swipe. -/
def swipe_threshold : Int := 30

/-- Tunable constant from handler.py line 44 in its source unit
(seconds): duration for long press. -/
def long_press_duration : ℚ := 1.0

/-- Tunable constant from handler.py line 45 in its source unit
(seconds): maximum duration for tap. -/
def tap_timeout : ℚ := 0.3

/-- Long-press duration in integer milliseconds (1.0 s). -/
def longPressDurationMs : Int := 1000

/-- Tap timeout in integer milliseconds (0.3 s). -/
def tapTimeoutMs : Int := 300

/-- Consistency of the millisecond rendering of handler.py line 44. -/
theorem long_press_duration_ms_consistent :
    long_press_duration * 1000 = (longPressDurationMs : ℚ) := by
  unfold long_press_duration longPressDurationMs; norm_num

/-- Consistency of the millisecond rendering of handler.py line 45. -/
theorem tap_timeout_ms_consistent :
    tap_timeout * 1000 = (tapTimeoutMs : ℚ) := by
  unfold tap_timeout tapTimeoutMs; norm_num

/-- TouchHandler._detect_gesture (handler.py lines 286-322): classify a
completed touch from start position, end position and duration
(milliseconds). -/
def detect_gesture (start_pos end_pos : Int × Int) (duration : Int) :
    Gesture :=
  let dx := end_pos.1 - start_pos.1
  let dy := end_pos.2 - start_pos.2
  if duration > longPressDurationMs then Gesture.LONG_PRESS
  else if |dx| > swipe_threshold ∨ |dy| > swipe_threshold then
    if |dx| > |dy| then
      if dx < 0 then Gesture.SWIPE_LEFT else Gesture.SWIPE_RIGHT
    else
      if dy < 0 then Gesture.SWIPE_UP else Gesture.SWIPE_DOWN
  else if duration < tapTimeoutMs then Gesture.TAP
  else Gesture.TAP

/-- Mutable touch-tracking state of TouchHandler (handler.py lines
48-51): touch_start, touch_start_time, touch_current and the
long-press-fired flag. -/
structure TouchState where
  touch_start : Option (Int × Int)
  touch_start_time : Option Int
  touch_current : Option (Int × Int)
  long_press_fired : Bool
deriving DecidableEq, Repr

/-- Initial TouchHandler state (handler.py lines 48-51). -/
def initialTouchState : TouchState :=
  { touch_start := none, touch_start_time := none, touch_current := none,
    long_press_fired := false }

/-- One cycle of TouchHandler.poll (handler.py lines 136-177; the
interrupt-driven branch at lines 180-256 implements the same logic).
`sample` is `none` when no touch is reported this cycle (empty
touch_data, or INT pin high) and `some (x, y)` when a touch is active
at (x, y); `now` is the poll time in milliseconds.  Returns the updated
state and the emitted event, if any.  The code reads touch_start_time
only under `touch_start is not None`; for reachable states both fields
are set together, and the embedding uses `getD 0` at that access. -/
def poll (s : TouchState) (sample : Option (Int × Int)) (now : Int) :
    TouchState × Option TouchEvent :=
  match sample with
  | none =>
    match s.touch_start with
    | some start =>
      let end_pos := s.touch_current.getD start
      let duration := now - s.touch_start_time.getD 0
      let event :=
        if ¬ s.long_press_fired then
          some { gesture := detect_gesture start end_pos duration,
                 position := some end_pos }
        else none
      (initialTouchState, event)
    | none => (s, none)
  | some (x, y) =>
    match s.touch_start with
    | none =>
      ({ s with touch_start := some (x, y), touch_start_time := some now,
                touch_current := some (x, y) }, none)
    | some start =>
      let s' := { s with touch_current := some (x, y) }
      let duration := now - s.touch_start_time.getD 0
      if duration > longPressDurationMs ∧ ¬ s.long_press_fired then
        ({ s' with long_press_fired := true },
         some { gesture := Gesture.LONG_PRESS, position := some start })
      else (s', none)

/-- Run poll over a list of (sample, time) cycles, collecting the
emitted events in order. -/
def pollRun (s : TouchState) :
    List (Option (Int × Int) × Int) → TouchState × List TouchEvent
  | [] => (s, [])
  | (sample, t) :: rest =>
    let step := poll s sample t
    let restRun := pollRun step.1 rest
    (restRun.1, step.2.toList ++ restRun.2)

theorem pollRun_append (s : TouchState)
    (l₁ l₂ : List (Option (Int × Int) × Int)) :
    pollRun s (l₁ ++ l₂) =
      ((pollRun (pollRun s l₁).1 l₂).1,
        (pollRun s l₁).2 ++ (pollRun (pollRun s l₁).1 l₂).2) := by
  induction l₁ generalizing s with
  | nil => simp [pollRun]
  | cons hd tl ih =>
    obtain ⟨sample, t⟩ := hd
    simp [pollRun, ih]

/-- Screen kind: a base Screen (screen_manager.py class Screen, whose
get_tap_zone always returns None) or a QuadrantScreen carrying its
detail_screens list (screen_manager.py lines 56-153). -/
inductive ScreenKind
  | standard
  | quadrant (detail_screens : List (Option String))
deriving DecidableEq, Repr

/-- A screen of the dashboard: its name and its kind.  Widgets and
rendering are out of scope. -/
structure Screen where
  name : String
  kind : ScreenKind
deriving DecidableEq, Repr

/-- Screen.get_tap_zone / QuadrantScreen.get_tap_zone
(screen_manager.py lines 51-53 and 121-147).  The base class always
returns None; the quadrant hit-test uses half_width = 125 and
half_height = 61 hard-coded for the 250x122 display. -/
def getTapZone (scr : Screen) (position : Option (Int × Int)) :
    Option Nat :=
  match scr.kind with
  | ScreenKind.standard => none
  | ScreenKind.quadrant _ =>
    match position with
    | none => none
    | some (x, y) =>
      if x < 125 then
        if y < 61 then some 0 else some 2
      else
        if y < 61 then some 1 else some 3

/-- QuadrantScreen.get_detail_screen (screen_manager.py lines 149-153):
index into detail_screens when in range, else None.  The base Screen
class defines no such method and no caller invokes it on one; the
embedding returns none there. -/
def getDetailScreen (scr : Screen) (quadrant : Nat) : Option String :=
  match scr.kind with
  | ScreenKind.standard => none
  | ScreenKind.quadrant ds =>
    if quadrant < ds.length then ds.getD quadrant none else none

/-- ScreenManager state (screen_manager.py lines 159-162): the ordered
screens and the current index.  current_index is an integer because the
Python code updates it with `%`, whose semantics on a possibly negative
left operand is Int.emod. -/
structure ScreenManager where
  screens : List Screen
  current_index : Int
deriving DecidableEq, Repr

/-- ScreenManager.next_screen (screen_manager.py lines 174-178). -/
def nextScreen (m : ScreenManager) : ScreenManager :=
  if m.screens = [] then m
  else { m with current_index :=
    (m.current_index + 1) % (m.screens.length : Int) }

/-- ScreenManager.previous_screen (screen_manager.py lines 180-184). -/
def previousScreen (m : ScreenManager) : ScreenManager :=
  if m.screens = [] then m
  else { m with current_index :=
    (m.current_index - 1) % (m.screens.length : Int) }

/-- Display width hard-coded in ScreenManager.handle_gesture
(screen_manager.py line 211). -/
def displayWidth : Int := 250

/-- Edge-zone width from screen_manager.py line 212:
edge_zone = width // 5, i.e. 20% of each side of the display. -/
def edgeZone : Int := displayWidth / 5

/-- ScreenManager.handle_gesture (screen_manager.py lines 192-221):
swipes change screens; a tap with a position navigates when it falls in
the left (x < edge_zone) or right (x > width - edge_zone) edge band;
every other event returns False with the manager unchanged.  A tuple
position is truthy in Python even at (0, 0), so `event.position`
filters exactly the None case. -/
def handleGesture (m : ScreenManager) (event : TouchEvent) :
    ScreenManager × Bool :=
  match event.gesture, event.position with
  | Gesture.SWIPE_LEFT, _ => (nextScreen m, true)
  | Gesture.SWIPE_RIGHT, _ => (previousScreen m, true)
  | Gesture.TAP, some (x, _) =>
    if x < edgeZone then (previousScreen m, true)
    else if x > displayWidth - edgeZone then (nextScreen m, true)
    else (m, false)
  | _, _ => (m, false)

/-- One numpad button (input_screen.py _create_button_layout): its key
character and its rectangle. -/
structure NumpadButton where
  key : Char
  x : Int
  y : Int
  width : Int
  height : Int
deriving DecidableEq, Repr

/-- Key grid of NumpadScreen._create_button_layout (input_screen.py
lines 48-53). -/
def numpadKeys : List (List Char) :=
  [['1', '2', '3'], ['4', '5', '6'], ['7', '8', '9'], ['<', '0', '✓']]

/-- NumpadScreen._create_button_layout (input_screen.py lines 39-68)
with the layout constants of lines 30-34: button_width 75,
button_height 22, button_spacing 5, start_x 10, start_y 30. -/
def buttons : List NumpadButton :=
  (numpadKeys.enum.map fun rowEntry =>
    rowEntry.2.enum.map fun colEntry =>
      { key := colEntry.2,
        x := 10 + (colEntry.1 : Int) * (75 + 5),
        y := 30 + (rowEntry.1 : Int) * (22 + 5),
        width := 75,
        height := 22 }).flatten

/-- Numpad state (input_screen.py NumpadScreen.__init__): the digit
limit and the buffer.  The title and the fixed button layout carry no
behaviour beyond `buttons` above; callbacks are modelled by the action
result of the handler. -/
structure NumpadState where
  max_digits : Nat
  current_value : List Char
deriving DecidableEq, Repr

/-- Outcome of a numpad touch, standing for the on_submit / on_cancel
callback invocations of input_screen.py. -/
inductive NumpadAction
  | none
  | submitted (value : List Char)
  | cancelled
deriving DecidableEq, Repr

/-- Button hit-test of NumpadScreen.handle_touch (input_screen.py lines
131-133): the first button whose rectangle contains the point, bounds
inclusive. -/
def findButton (pos : Int × Int) : Option NumpadButton :=
  buttons.find? fun b =>
    decide (b.x ≤ pos.1) && decide (pos.1 ≤ b.x + b.width) &&
    decide (b.y ≤ pos.2) && decide (pos.2 ≤ b.y + b.height)

/-- NumpadScreen.handle_touch (input_screen.py lines 118-165).  Returns
the updated state, the boolean result (True only when input completed:
submit or cancel) and the callback action.  Non-Tap events and events
without a position return False immediately (line 125); a digit appends
when the buffer is short of max_digits (lines 137-141); backspace drops
the last character, or cancels when the buffer is empty (lines
143-152); the check key submits only when the buffer length equals
max_digits (lines 154-161); a tap hitting no button returns False
(line 165). -/
def numpadHandleTouch (s : NumpadState) (event : TouchEvent) :
    NumpadState × Bool × NumpadAction :=
  match event.gesture, event.position with
  | Gesture.TAP, some pos =>
    match findButton pos with
    | none => (s, false, NumpadAction.none)
    | some btn =>
      if btn.key.isDigit then
        if s.current_value.length < s.max_digits then
          ({ s with current_value := s.current_value ++ [btn.key] },
           false, NumpadAction.none)
        else (s, false, NumpadAction.none)
      else if btn.key = '<' then
        if s.current_value ≠ [] then
          ({ s with current_value := s.current_value.dropLast },
           false, NumpadAction.none)
        else (s, true, NumpadAction.cancelled)
      else if btn.key = '✓' then
        if s.current_value.length = s.max_digits then
          (s, true, NumpadAction.submitted s.current_value)
        else (s, false, NumpadAction.none)
      else (s, false, NumpadAction.none)
  | _, _ => (s, false, NumpadAction.none)

/-- NumpadScreen.reset (input_screen.py lines 167-169). -/
def numpadReset (s : NumpadState) : NumpadState :=
  { s with current_value := [] }

/-- Fold NumpadScreen.handle_touch over a list of touch events, keeping
the screen state. -/
def numpadRun (s : NumpadState) : List TouchEvent → NumpadState
  | [] => s
  | ev :: rest => numpadRun (numpadHandleTouch s ev).1 rest

/-- InputMode state (input_screen.py lines 179-181): the active overlay
screen, if any.  The user callback is modelled by the Option value
returned from the handler. -/
structure InputModeState where
  active_screen : Option NumpadState
deriving DecidableEq, Repr

/-- InputMode.handle_touch (input_screen.py lines 215-224) composed
with the wiring of show_numpad / _on_submit / _on_cancel (lines
183-199): with no active screen the event is not handled; otherwise
the numpad handles it, a submitted value is passed to the user
callback (returned here as `some value`) and the overlay closes, and a
cancellation closes the overlay without a value. -/
def inputModeHandleTouch (m : InputModeState) (event : TouchEvent) :
    InputModeState × Bool × Option (List Char) :=
  match m.active_screen with
  | none => (m, false, none)
  | some s =>
    let r := numpadHandleTouch s event
    match r.2.2 with
    | NumpadAction.none => ({ active_screen := some r.1 }, r.2.1, none)
    | NumpadAction.submitted v => ({ active_screen := none }, r.2.1, some v)
    | NumpadAction.cancelled => ({ active_screen := none }, r.2.1, none)

/-- Modelled from the spec: the repository contains no Coordinate
Transformer — no rotation-dependent mapping from raw sensor coordinates
to display coordinates appears anywhere under src/ (the touch handler
consumes raw coordinates directly).  This definition follows spec §4.1
verbatim: rotation 90 maps (x, y) to (H_s - y, x); rotation 270 to
(y, W_s - x); rotation 180 to (H_s - y, W_s - x); rotation 0 and every
other value act as the identity. -/
def transform (raw_x raw_y : Int) (rotation : Int)
    (sensor_w sensor_h : Int) : Int × Int :=
  if rotation = 90 then (sensor_h - raw_y, raw_x)
  else if rotation = 270 then (raw_y, sensor_w - raw_x)
  else if rotation = 180 then (sensor_h - raw_y, sensor_w - raw_x)
  else (raw_x, raw_y)

/-- C3: the coordinate transform is pure and total — rotation 90 gives
(H_s - raw_y, raw_x), rotation 270 gives (raw_y, W_s - raw_x),
rotation 180 gives (H_s - raw_y, W_s - raw_x), rotation 0 is the
identity, and every rotation outside these four values is treated as
the identity. -/
theorem transform_rotation_cases (raw_x raw_y sensor_w sensor_h : Int) :
    transform raw_x raw_y 90 sensor_w sensor_h = (sensor_h - raw_y, raw_x)
    ∧ transform raw_x raw_y 270 sensor_w sensor_h
        = (raw_y, sensor_w - raw_x)
    ∧ transform raw_x raw_y 180 sensor_w sensor_h
        = (sensor_h - raw_y, sensor_w - raw_x)
    ∧ transform raw_x raw_y 0 sensor_w sensor_h = (raw_x, raw_y)
    ∧ ∀ rotation : Int, rotation ≠ 90 → rotation ≠ 270 → rotation ≠ 180 →
        transform raw_x raw_y rotation sensor_w sensor_h
          = (raw_x, raw_y) := by
  refine ⟨rfl, rfl, rfl, rfl, ?_⟩
  intro rotation h90 h270 h180
  simp [transform, h90, h270, h180]

/-- Witness for C3 at a concrete input: rotation 45 is none of the four
enumerated values and falls back to the identity. -/
theorem transform_rotation_cases_witness :
    (45 : Int) ≠ 90 ∧ transform 17 23 45 122 250 = (17, 23) :=
  ⟨by decide,
   (transform_rotation_cases 17 23 122 250).2.2.2.2 45 (by decide)
     (by decide) (by decide)⟩

/-- C6: on release with elapsed time not exceeding the long-press
threshold, if max(|dx|, |dy|) exceeds the swipe threshold the gesture
is a swipe on the dominant axis — horizontal when |dx| > |dy|
(SWIPE_LEFT when dx < 0, else SWIPE_RIGHT), vertical otherwise
(SWIPE_UP when dy < 0, else SWIPE_DOWN); in particular dx = +40,
dy = 0 yields SWIPE_RIGHT and dx = -40 yields SWIPE_LEFT. -/
theorem detect_gesture_swipe_classification (start_pos end_pos : Int × Int)
    (duration : Int) (hd : duration ≤ longPressDurationMs)
    (hm : max |end_pos.1 - start_pos.1| |end_pos.2 - start_pos.2|
            > swipe_threshold) :
    detect_gesture start_pos end_pos duration =
      if |end_pos.1 - start_pos.1| > |end_pos.2 - start_pos.2| then
        if end_pos.1 - start_pos.1 < 0 then Gesture.SWIPE_LEFT
        else Gesture.SWIPE_RIGHT
      else
        if end_pos.2 - start_pos.2 < 0 then Gesture.SWIPE_UP
        else Gesture.SWIPE_DOWN := by
  have h1 : ¬ duration > longPressDurationMs := by omega
  have h2 : |end_pos.1 - start_pos.1| > swipe_threshold ∨
      |end_pos.2 - start_pos.2| > swipe_threshold := lt_max_iff.mp hm
  unfold detect_gesture
  rw [if_neg h1, if_pos h2]

/-- Witness for C6 at concrete inputs: a 40-pixel rightward move over
100 ms classifies as SWIPE_RIGHT, and the mirrored leftward move as
SWIPE_LEFT. -/
theorem detect_gesture_swipe_classification_witness :
    detect_gesture (0, 0) (40, 0) 100 = Gesture.SWIPE_RIGHT
    ∧ detect_gesture (0, 0) (-40, 0) 100 = Gesture.SWIPE_LEFT :=
  ⟨by rw [detect_gesture_swipe_classification (0, 0) (40, 0) 100
      (by decide) (by decide)]; decide,
   by rw [detect_gesture_swipe_classification (0, 0) (-40, 0) 100
      (by decide) (by decide)]; decide⟩

/-- C9 counterexample: the source constants (handler.py lines 43-45)
are long_press_duration = 1.0 s and tap_timeout = 0.3 s, not the 2.0 s
and 0.5 s the claim states. -/
theorem tunable_constants_differ_from_claim :
    long_press_duration ≠ 2 ∧ tap_timeout ≠ 1 / 2 := by
  unfold long_press_duration tap_timeout
  norm_num

/-- C9 amended: the source defaults are swipe_threshold = 30 px,
long_press_duration = 1.0 s, tap_timeout = 0.3 s, and an edge zone of
width // 5 = 50 px, i.e. 20% of the 250-px display width. -/
theorem tunable_constants_values :
    swipe_threshold = 30 ∧ long_press_duration = 1
    ∧ tap_timeout = 3 / 10 ∧ edgeZone = 50
    ∧ edgeZone * 5 = displayWidth := by
  refine ⟨rfl, ?_, ?_, by decide, by decide⟩
  · unfold long_press_duration; norm_num
  · unfold tap_timeout; norm_num

/-- C4 counterexample: in the Tracking state with current position
(10, 10), an active sample at (0, 0) is not ignored — poll updates
touch_current to (0, 0), so a session field does change. -/
theorem tracking_zero_sample_changes_current :
    poll { touch_start := some (10, 10), touch_start_time := some 0,
           touch_current := some (10, 10), long_press_fired := false }
        (some (0, 0)) 500
      = ({ touch_start := some (10, 10), touch_start_time := some 0,
           touch_current := some (0, 0), long_press_fired := false },
         none) := by decide

/-- C4 amended: while Tracking, an active (0, 0) sample is handled like
any other sample — no filtering exists, so current_position is updated
to (0, 0) — and no gesture is emitted for it as long as the elapsed
time has not passed the long-press threshold. -/
theorem tracking_zero_sample_updates_like_any_sample
    (start cur : Int × Int) (t0 t : Int)
    (h : t - t0 ≤ longPressDurationMs) :
    poll { touch_start := some start, touch_start_time := some t0,
           touch_current := some cur, long_press_fired := false }
        (some (0, 0)) t
      = ({ touch_start := some start, touch_start_time := some t0,
           touch_current := some (0, 0), long_press_fired := false },
         none) := by
  obtain ⟨sx, sy⟩ := start
  have hc : ¬ (t - (some t0 : Option Int).getD 0 > longPressDurationMs
      ∧ ¬ (false : Bool) = true) := by
    simp only [Option.getD_some, Bool.not_false, and_true]
    omega
  simp [poll, hc]
  omega

/-- Witness for C4's amended theorem at a concrete input: 500 ms into a
session started at (10, 10), the (0, 0) sample overwrites the current
position and emits nothing. -/
theorem tracking_zero_sample_updates_like_any_sample_witness :
    poll { touch_start := some (10, 10), touch_start_time := some 0,
           touch_current := some (7, 8), long_press_fired := false }
        (some (0, 0)) 500
      = ({ touch_start := some (10, 10), touch_start_time := some 0,
           touch_current := some (0, 0), long_press_fired := false },
         none) :=
  tracking_zero_sample_updates_like_any_sample (10, 10) (7, 8) 0 500
    (by decide)

/-- C7 counterexample: a Tap at x = 200 — the first pixel of the
claimed right 20% band (x >= 200) — does not navigate: handle_gesture
uses the strict test x > 200, so it returns changed = false and leaves
the manager unchanged. -/
theorem right_edge_boundary_tap_does_not_navigate :
    handleGesture
        { screens := [{ name := "a", kind := ScreenKind.standard },
                      { name := "b", kind := ScreenKind.standard }],
          current_index := 0 }
        { gesture := Gesture.TAP, position := some (200, 60) }
      = ({ screens := [{ name := "a", kind := ScreenKind.standard },
                       { name := "b", kind := ScreenKind.standard }],
           current_index := 0 }, false) := by decide

/-- C7 amended: for every Tap with a position, x < 50 (the left 20%
band of the 250-px display) goes to the previous screen and returns
changed = true, and x > 200 (strictly beyond width - edge_zone, so the
boundary pixel x = 200 itself does not navigate) goes to the next
screen and returns changed = true; this holds for every manager state,
in particular for screens defining widget zones at the same pixel,
since handle_gesture tests the edge bands first (and performs no
widget-zone delegation at all). -/
theorem edge_zone_taps_navigate (m : ScreenManager) (x y : Int) :
    (x < 50 →
      handleGesture m { gesture := Gesture.TAP, position := some (x, y) }
        = (previousScreen m, true))
    ∧ (x > 200 →
      handleGesture m { gesture := Gesture.TAP, position := some (x, y) }
        = (nextScreen m, true)) := by
  have hz : edgeZone = 50 := by decide
  have hw : displayWidth = 250 := by decide
  constructor
  · intro h
    simp [handleGesture, hz, h]
  · intro h
    have h1 : ¬ x < edgeZone := by omega
    have h2 : x > displayWidth - edgeZone := by omega
    simp [handleGesture, h1, h2]

/-- Witness for C7's amended theorem at concrete inputs: on a
two-screen manager a Tap at (5, 60) navigates to the previous screen
and a Tap at (201, 60) navigates to the next screen. -/
theorem edge_zone_taps_navigate_witness :
    (handleGesture
        { screens := [{ name := "a", kind := ScreenKind.standard },
                      { name := "b", kind := ScreenKind.standard }],
          current_index := 0 }
        { gesture := Gesture.TAP, position := some (5, 60) }
      = (previousScreen
          { screens := [{ name := "a", kind := ScreenKind.standard },
                        { name := "b", kind := ScreenKind.standard }],
            current_index := 0 }, true))
    ∧ (handleGesture
        { screens := [{ name := "a", kind := ScreenKind.standard },
                      { name := "b", kind := ScreenKind.standard }],
          current_index := 0 }
        { gesture := Gesture.TAP, position := some (201, 60) }
      = (nextScreen
          { screens := [{ name := "a", kind := ScreenKind.standard },
                        { name := "b", kind := ScreenKind.standard }],
            current_index := 0 }, true)) :=
  ⟨(edge_zone_taps_navigate _ 5 60).1 (by decide),
   (edge_zone_taps_navigate _ 201 60).2 (by decide)⟩

/-- C1 counterexample: with an active numpad overlay, handling a
SWIPE_LEFT gesture returns consumed = false — the active overlay does
not report non-Tap gestures as consumed. -/
theorem active_overlay_swipe_not_consumed :
    (inputModeHandleTouch
        { active_screen := some { max_digits := 5, current_value := [] } }
        { gesture := Gesture.SWIPE_LEFT, position := none }).2.1
      = false := by decide

/-- Consumed-result characterization of NumpadScreen.handle_touch: the
boolean result is true only together with a terminal action (submit or
cancel). -/
theorem numpad_consumed_only_with_terminal_action (s : NumpadState)
    (event : TouchEvent) :
    (numpadHandleTouch s event).2.1 = false
    ∨ (numpadHandleTouch s event).2.2 ≠ NumpadAction.none := by
  rcases event with ⟨g, pos⟩
  rcases pos with _ | p
  · cases g <;> exact Or.inl rfl
  · cases g
    case TAP =>
      unfold numpadHandleTouch
      rcases h : findButton p with _ | btn
      · simp [h]
      · simp only [h]
        by_cases hd : btn.key.isDigit
        · by_cases hl : s.current_value.length < s.max_digits <;>
            simp [hd, hl]
        · by_cases hb : btn.key = '<'
          · by_cases he : s.current_value = [] <;> simp [hd, hb, he]
          · by_cases hc : btn.key = '✓'
            · by_cases hm : s.current_value.length = s.max_digits <;>
                simp [hd, hb, hc, hm]
            · simp [hd, hb, hc]
    all_goals exact Or.inl rfl

/-- C1 amended: while an overlay is active, handle_touch does not
consume non-Tap gestures, position-less events, or Taps outside the
button grid — each returns consumed = false with the overlay state
unchanged — and the return value is true only when the event completed
the input, i.e. only when the overlay closes (submit or cancel); the
dispatcher therefore cannot rely on the return value alone to block
background navigation while the overlay is open. -/
theorem overlay_consumes_only_terminal_events (s : NumpadState)
    (event : TouchEvent) :
    ((event.gesture ≠ Gesture.TAP ∨ event.position = none ∨
        (∃ p, event.position = some p ∧ findButton p = none)) →
      inputModeHandleTouch { active_screen := some s } event
        = ({ active_screen := some s }, false, none))
    ∧ ((inputModeHandleTouch { active_screen := some s } event).2.1
          = true →
        (inputModeHandleTouch
            { active_screen := some s } event).1.active_screen
          = none) := by
  constructor
  · intro h
    have hn : numpadHandleTouch s event = (s, false, NumpadAction.none) := by
      rcases h with h | h | ⟨p, hp, hfb⟩
      · unfold numpadHandleTouch
        rcases event with ⟨g, pos⟩
        cases g <;> cases pos <;> simp_all
      · unfold numpadHandleTouch
        rcases event with ⟨g, pos⟩
        cases g <;> simp_all
      · unfold numpadHandleTouch
        rcases event with ⟨g, pos⟩
        cases g <;> simp_all
    simp [inputModeHandleTouch, hn]
  · intro h
    rcases numpad_consumed_only_with_terminal_action s event with hf | hne
    · unfold inputModeHandleTouch at h
      rcases hact : (numpadHandleTouch s event).2.2 with _ | v <;>
        simp [hact, hf] at h
    · unfold inputModeHandleTouch
      rcases hact : (numpadHandleTouch s event).2.2 with _ | v
      · exact absurd hact hne
      · simp [hact]
      · simp [hact]

/-- Witness for C1's amended theorem at a concrete input: an active
overlay handling a SWIPE_UP gesture leaves the overlay open and
reports consumed = false. -/
theorem overlay_consumes_only_terminal_events_witness :
    inputModeHandleTouch
        { active_screen := some { max_digits := 5, current_value := [] } }
        { gesture := Gesture.SWIPE_UP, position := none }
      = ({ active_screen := some
            { max_digits := 5, current_value := [] } }, false, none) :=
  (overlay_consumes_only_terminal_events
      { max_digits := 5, current_value := [] }
      { gesture := Gesture.SWIPE_UP, position := none }).1
    (Or.inl (by decide))

/-- C8: tapping the confirm key (the check button at (170, 111)-(245,
133); the tap (180, 120) lands on it) submits the buffer to the user
callback and closes the overlay exactly when the buffer has max_digits
characters, and is a no-op (buffer unchanged, no callback, overlay
open) when the buffer is shorter; a digit tap (here (100, 60), the 5
key) meanwhile appends to a non-full buffer, so the spec scenario
1234 -> no-op -> +5 -> submit follows. -/
theorem confirm_submits_exactly_when_full (s : NumpadState) :
    (s.current_value.length = s.max_digits →
      inputModeHandleTouch { active_screen := some s }
          { gesture := Gesture.TAP, position := some (180, 120) }
        = ({ active_screen := none }, true, some s.current_value))
    ∧ (s.current_value.length < s.max_digits →
      inputModeHandleTouch { active_screen := some s }
          { gesture := Gesture.TAP, position := some (180, 120) }
        = ({ active_screen := some s }, false, none))
    ∧ (s.current_value.length < s.max_digits →
      inputModeHandleTouch { active_screen := some s }
          { gesture := Gesture.TAP, position := some (100, 60) }
        = ({ active_screen := some
              { s with current_value := s.current_value ++ ['5'] } },
           false, none)) := by
  have hconfirm : findButton (180, 120)
      = some { key := '✓', x := 170, y := 111, width := 75, height := 22 } := by
    decide
  have hfive : findButton (100, 60)
      = some { key := '5', x := 90, y := 57, width := 75, height := 22 } := by
    decide
  refine ⟨?_, ?_, ?_⟩
  · intro h
    simp [inputModeHandleTouch, numpadHandleTouch, hconfirm, h]
  · intro h
    have hne : s.current_value.length ≠ s.max_digits := Nat.ne_of_lt h
    simp [inputModeHandleTouch, numpadHandleTouch, hconfirm, hne]
  · intro h
    simp [inputModeHandleTouch, numpadHandleTouch, hfive, h]

/-- Witness for C8 at the spec scenario: with max_digits = 5 and buffer
"1234" the confirm tap is a no-op, the digit tap appends the 5, and
the confirm tap on the resulting "12345" submits it and closes the
overlay. -/
theorem confirm_submits_exactly_when_full_witness :
    (inputModeHandleTouch
        { active_screen := some
            { max_digits := 5, current_value := ['1', '2', '3', '4'] } }
        { gesture := Gesture.TAP, position := some (180, 120) }
      = ({ active_screen := some
            { max_digits := 5, current_value := ['1', '2', '3', '4'] } },
         false, none))
    ∧ (inputModeHandleTouch
        { active_screen := some
            { max_digits := 5, current_value := ['1', '2', '3', '4'] } }
        { gesture := Gesture.TAP, position := some (100, 60) }
      = ({ active_screen := some
            { max_digits := 5,
              current_value := ['1', '2', '3', '4', '5'] } },
         false, none))
    ∧ (inputModeHandleTouch
        { active_screen := some
            { max_digits := 5,
              current_value := ['1', '2', '3', '4', '5'] } }
        { gesture := Gesture.TAP, position := some (180, 120) }
      = ({ active_screen := none }, true,
         some ['1', '2', '3', '4', '5'])) :=
  ⟨(confirm_submits_exactly_when_full
      { max_digits := 5, current_value := ['1', '2', '3', '4'] }).2.1
      (by decide),
   (confirm_submits_exactly_when_full
      { max_digits := 5, current_value := ['1', '2', '3', '4'] }).2.2
      (by decide),
   (confirm_submits_exactly_when_full
      { max_digits := 5, current_value := ['1', '2', '3', '4', '5'] }).1
      (by decide)⟩

/-- C2 is refuted by the code as written: for a Tap at (60, 30) —
outside both edge zones — on a QuadrantScreen whose zone resolver maps
the tapped quadrant 0 to the detail screen at index 1, handle_gesture
still returns changed = false with current_index unchanged; it never
consults get_tap_zone or get_detail_screen, although QuadrantScreen's
own docstring promises navigation to the detail screen when a quadrant
is tapped. -/
theorem interior_tap_ignores_quadrant_detail_links :
    handleGesture
        { screens :=
            [{ name := "home",
               kind := ScreenKind.quadrant
                 [some "detail", none, none, none] },
             { name := "detail", kind := ScreenKind.standard }],
          current_index := 0 }
        { gesture := Gesture.TAP, position := some (60, 30) }
      = ({ screens :=
            [{ name := "home",
               kind := ScreenKind.quadrant
                 [some "detail", none, none, none] },
             { name := "detail", kind := ScreenKind.standard }],
           current_index := 0 }, false)
    ∧ getTapZone
        { name := "home",
          kind := ScreenKind.quadrant [some "detail", none, none, none] }
        (some (60, 30)) = some 0
    ∧ getDetailScreen
        { name := "home",
          kind := ScreenKind.quadrant [some "detail", none, none, none] }
        0 = some "detail" := by
  refine ⟨?_, by decide, by decide⟩
  decide

/-- Single-step bound for NumpadScreen.handle_touch: the digit limit is
never modified, and a buffer within the limit stays within it (a digit
is appended only under the length < max_digits guard). -/
theorem numpadHandleTouch_step_bound (s : NumpadState) (event : TouchEvent) :
    ((numpadHandleTouch s event).1).max_digits = s.max_digits
    ∧ (s.current_value.length ≤ s.max_digits →
        ((numpadHandleTouch s event).1).current_value.length
          ≤ s.max_digits) := by
  rcases event with ⟨g, pos⟩
  rcases pos with _ | p
  · cases g <;> exact ⟨rfl, fun h => h⟩
  · cases g
    case TAP =>
      unfold numpadHandleTouch
      rcases hfb : findButton p with _ | btn
      · simp [hfb]
      · simp only [hfb]
        by_cases hd : btn.key.isDigit
        · by_cases hl : s.current_value.length < s.max_digits <;>
            (simp [hd, hl]; try omega)
        · by_cases hb : btn.key = '<'
          · by_cases he : s.current_value = [] <;> simp [hd, hb, he]
            intro h
            have := List.length_dropLast s.current_value
            omega
          · by_cases hc : btn.key = '✓'
            · by_cases hm : s.current_value.length = s.max_digits <;>
                simp [hd, hb, hc, hm]
            · simp [hd, hb, hc]
    all_goals exact ⟨rfl, fun h => h⟩

/-- Bound for a whole event sequence, by induction from the single-step
bound. -/
theorem numpadRun_bound (events : List TouchEvent) :
    ∀ s : NumpadState, s.current_value.length ≤ s.max_digits →
      (numpadRun s events).current_value.length
          ≤ (numpadRun s events).max_digits
      ∧ (numpadRun s events).max_digits = s.max_digits := by
  induction events with
  | nil => intro s h; exact ⟨h, rfl⟩
  | cons ev rest ih =>
    intro s h
    obtain ⟨hmax, hlen⟩ := numpadHandleTouch_step_bound s ev
    obtain ⟨h1, h2⟩ := ih (numpadHandleTouch s ev).1
      (by rw [hmax]; exact hlen h)
    simp only [numpadRun]
    exact ⟨h1, by rw [h2, hmax]⟩

/-- C10: starting from a fresh numpad (empty buffer), after any
sequence of touch events the buffer never exceeds max_digits
characters, and it is within the limit after reset as well. -/
theorem numpad_buffer_never_exceeds_max :
    (∀ (limit : Nat) (events : List TouchEvent),
      (numpadRun { max_digits := limit, current_value := [] }
          events).current_value.length ≤ limit)
    ∧ ∀ s : NumpadState,
        (numpadReset s).current_value.length ≤ s.max_digits := by
  constructor
  · intro limit events
    obtain ⟨h1, h2⟩ := numpadRun_bound events
      { max_digits := limit, current_value := [] } (by simp)
    rw [h2] at h1
    exact h1
  · intro s
    simp [numpadReset]

/-- Unfolding equation for pollRun on a cons cell. -/
theorem pollRun_cons (s : TouchState) (sample : Option (Int × Int))
    (t : Int) (rest : List (Option (Int × Int) × Int)) :
    pollRun s ((sample, t) :: rest)
      = ((pollRun (poll s sample t).1 rest).1,
         (poll s sample t).2.toList
           ++ (pollRun (poll s sample t).1 rest).2) := rfl

/-- Step equation: from Idle, an active sample opens a session and
emits nothing. -/
theorem poll_idle_active (x : Int × Int) (t : Int) :
    poll initialTouchState (some x) t
      = ({ touch_start := some x, touch_start_time := some t,
           touch_current := some x, long_press_fired := false },
         none) := by
  obtain ⟨x1, x2⟩ := x
  rfl

/-- Step equation: with the long-press flag already set, an active
sample only updates touch_current and emits nothing. -/
theorem poll_active_fired (p0 c x : Int × Int) (t0 t : Int) :
    poll { touch_start := some p0, touch_start_time := some t0,
           touch_current := some c, long_press_fired := true }
        (some x) t
      = ({ touch_start := some p0, touch_start_time := some t0,
           touch_current := some x, long_press_fired := true },
         none) := by
  obtain ⟨x1, x2⟩ := x
  simp [poll]

/-- Step equation: while Tracking, an active sample updates
touch_current, and emits LONG_PRESS at the start position exactly when
the elapsed time passes the threshold. -/
theorem poll_active_tracking (p0 c x : Int × Int) (t0 t : Int) :
    poll { touch_start := some p0, touch_start_time := some t0,
           touch_current := some c, long_press_fired := false }
        (some x) t
      = if t - t0 > longPressDurationMs then
          ({ touch_start := some p0, touch_start_time := some t0,
             touch_current := some x, long_press_fired := true },
           some { gesture := Gesture.LONG_PRESS, position := some p0 })
        else
          ({ touch_start := some p0, touch_start_time := some t0,
             touch_current := some x, long_press_fired := false },
           none) := by
  obtain ⟨x1, x2⟩ := x
  by_cases hf : t - t0 > longPressDurationMs <;> simp [poll, hf]

/-- Step equation: a release after the long press fired emits nothing
and resets the session. -/
theorem poll_release_fired (p0 c : Int × Int) (t0 t : Int) :
    poll { touch_start := some p0, touch_start_time := some t0,
           touch_current := some c, long_press_fired := true }
        none t
      = (initialTouchState, none) := by
  simp [poll]

/-- Helper for C5: once the long-press flag is set, further active
samples only update touch_current and emit nothing. -/
theorem pollRun_active_after_fire (mids : List ((Int × Int) × Int)) :
    ∀ (p0 c : Int × Int) (t0 : Int),
    ∃ c' : Int × Int,
      pollRun { touch_start := some p0, touch_start_time := some t0,
                touch_current := some c, long_press_fired := true }
          (mids.map fun mid => (some mid.1, mid.2))
        = ({ touch_start := some p0, touch_start_time := some t0,
             touch_current := some c', long_press_fired := true },
           []) := by
  induction mids with
  | nil => intro p0 c t0; exact ⟨c, rfl⟩
  | cons hd tl ih =>
    intro p0 c t0
    obtain ⟨x, ht⟩ := hd
    obtain ⟨c', hc'⟩ := ih p0 x t0
    refine ⟨c', ?_⟩
    simp [pollRun_cons, poll_active_fired, hc']

/-- Helper for C5: from a Tracking state, as soon as some active sample
arrives more than the long-press threshold after the session start,
exactly one LONG_PRESS at the start position is emitted over the whole
active stretch, and the state ends with the flag set. -/
theorem pollRun_active_fires (mids : List ((Int × Int) × Int)) :
    ∀ (p0 c : Int × Int) (t0 : Int),
    (∃ mid ∈ mids, mid.2 - t0 > longPressDurationMs) →
    ∃ c' : Int × Int,
      pollRun { touch_start := some p0, touch_start_time := some t0,
                touch_current := some c, long_press_fired := false }
          (mids.map fun mid => (some mid.1, mid.2))
        = ({ touch_start := some p0, touch_start_time := some t0,
             touch_current := some c', long_press_fired := true },
           [{ gesture := Gesture.LONG_PRESS, position := some p0 }]) := by
  induction mids with
  | nil => intro p0 c t0 hex; simp at hex
  | cons hd tl ih =>
    intro p0 c t0 hex
    obtain ⟨x, ht⟩ := hd
    by_cases hfire : ht - t0 > longPressDurationMs
    · obtain ⟨c', hc'⟩ := pollRun_active_after_fire tl p0 x t0
      refine ⟨c', ?_⟩
      simp [pollRun_cons, poll_active_tracking, hfire, hc']
    · have hex' : ∃ mid ∈ tl, mid.2 - t0 > longPressDurationMs := by
        rcases hex with ⟨mid, hmem, hgt⟩
        rcases List.mem_cons.mp hmem with hmid | hmid
        · subst hmid; exact absurd hgt hfire
        · exact ⟨mid, hmid, hgt⟩
      obtain ⟨c', hc'⟩ := ih p0 x t0 hex'
      refine ⟨c', ?_⟩
      simp [pollRun_cons, poll_active_tracking, hfire, hc']

/-- C5: in every session consisting of an initial touch at position p0
and time t0, further active samples among which some arrives more than
the long-press threshold after t0, and a final release, the recognizer
emits exactly one gesture in total — LONG_PRESS at the start position,
emitted during the hold — and the release emits nothing further. -/
theorem long_press_fires_exactly_once (p0 : Int × Int) (t0 : Int)
    (mids : List ((Int × Int) × Int)) (tr : Int)
    (h : ∃ mid ∈ mids, mid.2 - t0 > longPressDurationMs) :
    (pollRun initialTouchState
        ((some p0, t0) :: (mids.map fun mid => (some mid.1, mid.2))
          ++ [(none, tr)])).2
      = [{ gesture := Gesture.LONG_PRESS, position := some p0 }]
    ∧ (pollRun initialTouchState
        ((some p0, t0) :: (mids.map fun mid => (some mid.1, mid.2)))).2
      = [{ gesture := Gesture.LONG_PRESS, position := some p0 }] := by
  obtain ⟨c', hc'⟩ := pollRun_active_fires mids p0 p0 t0 h
  constructor
  · simp [pollRun_cons, poll_idle_active, pollRun_append, hc',
      poll_release_fired, pollRun]
  · simp [pollRun_cons, poll_idle_active, hc']

/-- Witness for C5 at a concrete session: holding at (10, 10) from 0 ms
with an active sample at 2000 ms and a release at 3000 ms yields
exactly the one LONG_PRESS at (10, 10). -/
theorem long_press_fires_exactly_once_witness :
    (pollRun initialTouchState
        [(some (10, 10), 0), (some (10, 10), 2000), (none, 3000)]).2
      = [{ gesture := Gesture.LONG_PRESS, position := some (10, 10) }] :=
  (long_press_fires_exactly_once (10, 10) 0 [((10, 10), 2000)] 3000
    ⟨((10, 10), 2000), by decide, by decide⟩).1
